import Mathlib

/-!
# Verification of the r2r_ctd persistent computation cache and tool orchestrator

Shallow embedding of the core of `r2r_ctd` (src/r2r_ctd):

* `state.py` — the per-cast memoization cache (`get_or_write_check`,
  `get_or_write_derived_file`) over a durable xarray Dataset record;
* `docker_ctl.py` — worker-container health gating (`container_ready`,
  `ContainerGetter.__call__`), stderr failure classification
  (`run_con_report`, `run_sbebatch`) and the bounded-retry decorator
  (`attempts`);
* `accessors.py` — the `con_report` / `cnv_24hz` / `cnv_1db` accessors.

The Dataset is modelled as an association-list record: data variables
(text artifacts keyed by name), the presence of the special `r2r_qc`
variable, its attribute map (int8 values), and a count of durable
`write_ds_r2r` persistence calls.  Producers are modelled as functions
returning `Except PyExc` values; Python exception propagation is the
`Except` error channel.
-/

namespace R2RCTD

/-- Whether the pattern (first argument) is an initial segment of the
text (second argument), character by character. -/
def charsStartWith : List Char → List Char → Bool
  | [], _ => true
  | _ :: _, [] => false
  | a :: as, b :: bs => a == b && charsStartWith as bs

/-- Whether the pattern occurs as a contiguous run somewhere in the
text. -/
def charsContain (sub : List Char) : List Char → Bool
  | [] => sub.isEmpty
  | b :: bs => charsStartWith sub (b :: bs) || charsContain sub bs

/-- `sub in s` on Python strings (and `sub in stderr` on bytes):
substring containment. -/
def strContains (s sub : String) : Bool :=
  charsContain sub.data s.data

/-- Exceptions that appear in the modelled modules.  `genericExc` is a
plain Python `Exception`, `valueError` a `ValueError` (payload: the
requested key; the Python message also interpolates the filename and the
offending dict's keys, which we do not track). -/
inductive PyExc where
  | invalidSBEFile
  | invalidXMLCON
  | wineDebuggerEntered
  | genericExc (msg : String)
  | valueError (key : String)
  deriving Repr, DecidableEq

/-- Modelled from the spec: `exceptions.py` is not among the sources, so
the exception class hierarchy is taken from §4.4/§7 of the spec: the
permanent input error (`InvalidXMLCONError`, raised by the
configuration-report task) is surfaced to the MemoizationCache as the
"malformed input" signal, i.e. it is an `InvalidSBEFileError`; the
transient crash (`WineDebuggerEnteredError`) and generic exceptions are
process-scoped and are not. This predicate is Python's
`isinstance(e, InvalidSBEFileError)` used by the `except` clause in
`get_or_write_derived_file`. -/
def isInvalidSBEFile : PyExc → Bool
  | .invalidSBEFile => true
  | .invalidXMLCON => true
  | _ => false

/-- `except WineDebuggerEnteredError` in the `attempts` decorator. -/
def isWineDebuggerEntered : PyExc → Bool
  | .wineDebuggerEntered => true
  | _ => false

/-- `R2R_QC_VARNAME` from `state.py`. -/
def R2R_QC_VARNAME : String := "r2r_qc"

/-- The per-cast durable record (an xarray `Dataset` backed by one
netCDF file).  `data` holds the ordinary data variables (raw inputs and
derived text artifacts, keyed by variable name); `qcPresent` is whether
the `r2r_qc` data variable exists; `qcAttrs` is that variable's
attribute map (int8 results of checks and `<key>_error` markers);
`writes` counts `write_ds_r2r` durable persistence calls. -/
structure DS where
  data : List (String × String)
  qcPresent : Bool
  qcAttrs : List (String × Int)
  writes : Nat
  deriving Repr, DecidableEq

/-- Association-list read (`d.get(k)` on a Python dict, `attrs.get` /
`attrs[k]` presence on a Dataset variable). -/
def alookup {β : Type} (l : List (String × β)) (k : String) : Option β :=
  match l with
  | [] => none
  | p :: rest => if p.1 = k then some p.2 else alookup rest k

/-- Association-list overwrite (`d[k] = v` on a Python dict /
`ds[k] = v` on a Dataset). -/
def aset {β : Type} (l : List (String × β)) (k : String) (v : β) :
    List (String × β) :=
  l.filter (fun p => p.1 ≠ k) ++ [(k, v)]

/-- `key in ds` on the Dataset: membership among the data variables
(which include `r2r_qc` once it has been assigned). -/
def dsMem (ds : DS) (key : String) : Bool :=
  (alookup ds.data key).isSome || (key == R2R_QC_VARNAME && ds.qcPresent)

/-- Result shapes a derived-file producer may return: a single blob
stored under the requested key, or a dict of several keys-to-blobs.
Raising is the `Except` error channel of the producer's type. -/
inductive ProdRes where
  | single (v : String)
  | multi (m : List (String × String))
  deriving Repr, DecidableEq

/-- Output of `get_or_write_check`: the returned boolean, the record
after the call, and the number of times the check function was
invoked (0 or 1). -/
structure CheckOut where
  result : Bool
  ds : DS
  calls : Nat
  deriving Repr, DecidableEq

/-- Lines 151-152 of `state.py`: `if R2R_QC_VARNAME not in ds:
ds[R2R_QC_VARNAME] = xr.DataArray()` — an in-memory initialization of
the QC variable with an empty attribute map (not itself persisted). -/
def ensureQC (ds : DS) : DS :=
  if ds.qcPresent then ds
  else { ds with qcPresent := true, qcAttrs := [] }

/-- `state.get_or_write_check`.  If the `r2r_qc` variable is absent it
is initialized with an empty attribute map; if `key` is already among
its attributes the stored value is returned as `bool(value)` without
invoking `func`; otherwise `func` runs, its result is stored as
`np.int8(result)` and the whole record is persisted (`write_ds_r2r`)
before returning. -/
def get_or_write_check (ds : DS) (key : String) (func : DS → Bool) :
    CheckOut :=
  let ds1 : DS := ensureQC ds
  match alookup ds1.qcAttrs key with
  | some v => ⟨v != 0, ds1, 0⟩
  | none =>
      let r := func ds1
      ⟨r,
       { ds1 with
          qcAttrs := aset ds1.qcAttrs key (if r then 1 else 0),
          writes := ds1.writes + 1 },
       1⟩

instance {ε α : Type} [DecidableEq ε] [DecidableEq α] :
    DecidableEq (Except ε α) := fun x y =>
  match x, y with
  | .ok a, .ok b =>
      if h : a = b then isTrue (by rw [h]) else isFalse (by simp [h])
  | .error a, .error b =>
      if h : a = b then isTrue (by rw [h]) else isFalse (by simp [h])
  | .ok _, .error _ => isFalse (by simp)
  | .error _, .ok _ => isFalse (by simp)

/-- Output of `get_or_write_derived_file`: the Python return value
(`Except` error = an uncaught exception; `ok none` = `return None`;
`ok (some v)` = `return ds[key]`), the record after the call, and the
number of producer invocations (0 or 1). -/
structure DerivedOut where
  result : Except PyExc (Option String)
  ds : DS
  calls : Nat
  deriving Repr, DecidableEq

/-- `state.get_or_write_derived_file`.  In order: if `key` is already a
variable of the record, return it without invoking `func`; if the
`r2r_qc` variable carries a `<key>_error` attribute (a `get is not
None` presence test), return `None` without invoking `func`; otherwise
invoke `func`: an `InvalidSBEFileError` is absorbed by recording the
error marker through `get_or_write_check` (value `False`) and
returning `None`; a dict result missing `key` raises `ValueError`
before anything is written; otherwise every returned key is assigned on
the record, the record is persisted, and `ds[key]` is returned. -/
def get_or_write_derived_file (ds : DS) (key : String)
    (func : DS → Except PyExc ProdRes) : DerivedOut :=
  if dsMem ds key then ⟨.ok (alookup ds.data key), ds, 0⟩
  else
    let error_key := key ++ "_error"
    if ds.qcPresent && (alookup ds.qcAttrs error_key).isSome then
      ⟨.ok none, ds, 0⟩
    else
      match func ds with
      | .error e =>
          if isInvalidSBEFile e then
            let c := get_or_write_check ds error_key (fun _ => false)
            ⟨.ok none, c.ds, 1⟩
          else ⟨.error e, ds, 1⟩
      | .ok (.single v) =>
          let ds1 : DS :=
            { ds with data := aset ds.data key v, writes := ds.writes + 1 }
          ⟨.ok (alookup ds1.data key), ds1, 1⟩
      | .ok (.multi m) =>
          if (alookup m key).isSome then
            let ds1 : DS :=
              { ds with
                  data := m.foldl (fun d p => aset d p.1 p.2) ds.data,
                  writes := ds.writes + 1 }
            ⟨.ok (alookup ds1.data key), ds1, 1⟩
          else ⟨.error (.valueError key), ds, 1⟩

/-! ## docker_ctl.py: health gating, failure classification, retry -/

/-- The polling sleep of `container_ready`, in seconds (`sleep = 0.5`;
0.5 is exact in binary floating point, so ℚ is a faithful model). -/
def readySleepSec : ℚ := 1 / 2

/-- The default `timeout` argument of `container_ready`, in seconds. -/
def readyTimeoutSec : ℚ := 5

/-- `tries = timeout / sleep` from `container_ready` (exact in floating
point for these values). -/
def readyTries : ℚ := readyTimeoutSec / readySleepSec

/-- The countdown `while tries: ... tries -= 1` runs an integer number
of iterations; this is that number (justified by `readyTries_eq`
below). -/
def readyTriesN : Nat := 10

/-- The polling loop of `container_ready`: `health i` is the worker's
self-reported health at the i-th `container.reload()` (true =
"healthy").  Returns whether the worker became healthy and the number
of polls performed. -/
def container_ready_loop (health : Nat → Bool) : Nat → Nat → Bool × Nat
  | i, 0 => (false, i)
  | i, t + 1 =>
      if health i then (true, i + 1)
      else container_ready_loop health (i + 1) t

/-- `docker_ctl.container_ready` with the default 5-second timeout. -/
def container_ready (health : Nat → Bool) : Bool × Nat :=
  container_ready_loop health 0 readyTriesN

/-- `ContainerGetter.__call__`: if a container reference exists return
it; otherwise launch one and health-gate it, raising a plain
`Exception` when `container_ready` fails. (`Container` is abstracted
to `Unit`; the launch itself is assumed to succeed, as in the source
where `client.containers.run` either returns a container or raises
outside this model.) -/
def ContainerGetter_call (existing : Option Unit) (health : Nat → Bool) :
    Except PyExc Unit :=
  match existing with
  | some c => .ok c
  | none =>
      if (container_ready health).1 then .ok ()
      else .error (.genericExc "Could not start container after 5 seconds")

/-- The stderr signature classified as permanent/input-error in
`run_con_report`. -/
def readConFileSig : String := "ReadConFile - failed to read"

/-- The stderr signature classified as transient/crash in
`run_sbebatch`. -/
def startingDebuggerSig : String := "starting debugger"

/-- The stderr-classification of `run_con_report`: the loop over the
captured stderr stream raises `InvalidXMLCONError` at the first chunk
containing `readConFileSig`; otherwise the tool run completes. -/
def run_con_report_classify (stderrChunks : List String) :
    Except PyExc Unit :=
  if stderrChunks.any (fun l => strContains l readConFileSig) then
    .error .invalidXMLCON
  else .ok ()

/-- The stderr-classification of `run_sbebatch`: the loop over the
captured stderr stream raises `WineDebuggerEnteredError` at the first
message containing `startingDebuggerSig`; otherwise the tool run
completes. -/
def run_sbebatch_classify (stderrChunks : List String) :
    Except PyExc Unit :=
  if stderrChunks.any (fun l => strContains l startingDebuggerSig) then
    .error .wineDebuggerEntered
  else .ok ()

/-- Observable outcome of a call to a function wrapped by the
`attempts` decorator: the Python return (`ok (some v)` = the wrapped
function's value, `ok none` = the wrapper's implicit `return None`
after the `while` loop ends, `error e` = an uncaught exception), the
number of invocations of the wrapped function, and the number of
`container.restart()` calls. -/
structure AttemptsTrace (α : Type) where
  result : Except PyExc (Option α)
  calls : Nat
  restarts : Nat
  deriving Repr, DecidableEq

/-- The `while attempt <= tires` loop of the `attempts` decorator,
counted by the number of loop iterations left: the source counts
`attempt` up from 1 and loops while `attempt <= tires`, which is the
same as this countdown with `remaining = tires + 1 - attempt`.
`func i` is the outcome of the i-th invocation of the wrapped function
(0-based); `restartOk j` is whether `container_ready` succeeds after
the j-th `container.restart()` (0-based).  Only
`WineDebuggerEnteredError` is caught; any other exception propagates.
When the loop condition fails, the wrapper falls off the end of the
`while` loop and implicitly returns `None`. -/
def attempts_loop {α : Type} (func : Nat → Except PyExc α)
    (restartOk : Nat → Bool) :
    Nat → Nat → Nat → AttemptsTrace α
  | 0, calls, restarts => ⟨.ok none, calls, restarts⟩
  | remaining + 1, calls, restarts =>
      match func calls with
      | .ok v => ⟨.ok (some v), calls + 1, restarts⟩
      | .error e =>
          if isWineDebuggerEntered e then
            if restartOk restarts then
              attempts_loop func restartOk remaining (calls + 1) (restarts + 1)
            else
              ⟨.error (.genericExc "Could not restart container after 5 seconds"),
               calls + 1, restarts + 1⟩
          else ⟨.error e, calls + 1, restarts⟩

/-- `docker_ctl.attempts(tires)` applied to a wrapped function: the
loop starts at `attempt = 1`, i.e. with `tires` iterations left. -/
def attempts {α : Type} (tires : Nat) (func : Nat → Except PyExc α)
    (restartOk : Nat → Bool) : AttemptsTrace α :=
  attempts_loop func restartOk tires 0 0

/-- The `tires` bound with which `run_sbebatch` is decorated
(`@attempts(3)`). -/
def sbebatchTires : Nat := 3

/-- `run_sbebatch` as wrapped by `@attempts(3)`, observed through its
stderr classification: `runs i` is the stderr stream captured on the
i-th invocation of the underlying task. -/
def run_sbebatch_attempts (runs : Nat → List String)
    (restartOk : Nat → Bool) : AttemptsTrace Unit :=
  attempts sbebatchTires (fun i => run_sbebatch_classify (runs i)) restartOk

/-! ## accessors.py: the `con_report` / `cnv_24hz` / `cnv_1db` accessors -/

/-- Python truthiness of the value returned by
`get_or_write_derived_file`: `None` is falsy, and a 0-d string
DataArray is truthy exactly when the string is nonempty. -/
def truthy : Option String → Bool
  | none => false
  | some s => s != ""

/-- `R2RAccessor.con_report`: run the derived-file cache for key
`con_report` with producer `make_con_report` (here `mk`); return the
item when the result is truthy, else `None`.  Exceptions propagate. -/
def R2RAccessor.con_report (ds : DS) (mk : DS → Except PyExc ProdRes) :
    Except PyExc (Option String) × DS :=
  let o := get_or_write_derived_file ds "con_report" mk
  match o.result with
  | .error e => (.error e, o.ds)
  | .ok v => (.ok (if truthy v then v else none), o.ds)

/-- Output of the `cnv_24hz` / `cnv_1db` accessors: the Python return,
the record after the call, and the number of invocations of the
conversion producer (`make_cnvs`). -/
structure CnvOut where
  result : Except PyExc (Option String)
  ds : DS
  cnvCalls : Nat
  deriving Repr, DecidableEq

/-- `R2RAccessor.cnv_24hz`: if `self.con_report` is `None`, return
`None` without attempting conversion; otherwise run the derived-file
cache for key `cnv_24hz` with producer `make_cnvs` (here `mkCnv`) and
apply the same truthiness filter. -/
def R2RAccessor.cnv_24hz (ds : DS) (mkCon mkCnv : DS → Except PyExc ProdRes) :
    CnvOut :=
  match R2RAccessor.con_report ds mkCon with
  | (.error e, ds1) => ⟨.error e, ds1, 0⟩
  | (.ok none, ds1) => ⟨.ok none, ds1, 0⟩
  | (.ok (some _), ds1) =>
      let o := get_or_write_derived_file ds1 "cnv_24hz" mkCnv
      match o.result with
      | .error e => ⟨.error e, o.ds, o.calls⟩
      | .ok v => ⟨.ok (if truthy v then v else none), o.ds, o.calls⟩

/-- `R2RAccessor.cnv_1db`: same shape as `cnv_24hz` with key
`cnv_1db`. -/
def R2RAccessor.cnv_1db (ds : DS) (mkCon mkCnv : DS → Except PyExc ProdRes) :
    CnvOut :=
  match R2RAccessor.con_report ds mkCon with
  | (.error e, ds1) => ⟨.error e, ds1, 0⟩
  | (.ok none, ds1) => ⟨.ok none, ds1, 0⟩
  | (.ok (some _), ds1) =>
      let o := get_or_write_derived_file ds1 "cnv_1db" mkCnv
      match o.result with
      | .error e => ⟨.error e, o.ds, o.calls⟩
      | .ok v => ⟨.ok (if truthy v then v else none), o.ds, o.calls⟩

/-! ## Operation sequences over a cast record (for the write-once invariant) -/

/-- One cache operation against a cast record: a boolean check or a
derived-file generation. -/
inductive QCOp where
  | check (key : String) (f : DS → Bool)
  | derived (key : String) (f : DS → Except PyExc ProdRes)

/-- The record after one cache operation. -/
def applyOp (ds : DS) (op : QCOp) : DS :=
  match op with
  | .check k f => (get_or_write_check ds k f).ds
  | .derived k f => (get_or_write_derived_file ds k f).ds

/-- The record after a sequence of cache operations. -/
def runOps (ds : DS) (ops : List QCOp) : DS :=
  ops.foldl applyOp ds

/-! ## Lemmas about the record operations -/

theorem readyTries_eq : readyTries = (readyTriesN : ℚ) := by
  norm_num [readyTries, readyTimeoutSec, readySleepSec, readyTriesN]

theorem alookup_aset_self {β : Type} (l : List (String × β)) (k : String)
    (v : β) : alookup (aset l k v) k = some v := by
  induction l with
  | nil => simp [aset, alookup]
  | cons p l ih =>
      by_cases h : p.1 = k
      · simpa [aset, List.filter_cons, h] using ih
      · simpa [aset, List.filter_cons, alookup, h] using ih

theorem alookup_aset_ne {β : Type} (l : List (String × β)) (k k' : String)
    (v : β) (h : k' ≠ k) : alookup (aset l k v) k' = alookup l k' := by
  induction l with
  | nil => simp [aset, alookup, Ne.symm h]
  | cons p l ih =>
      by_cases hp : p.1 = k
      · simpa [aset, List.filter_cons, alookup, hp, Ne.symm h] using ih
      · by_cases hk : p.1 = k'
        · simp [aset, List.filter_cons, alookup, hp, hk, h]
        · simpa [aset, List.filter_cons, alookup, hp, hk] using ih

theorem ensureQC_qcPresent (ds : DS) : (ensureQC ds).qcPresent = true := by
  by_cases h : ds.qcPresent <;> simp [ensureQC, h]

theorem ensureQC_data (ds : DS) : (ensureQC ds).data = ds.data := by
  by_cases h : ds.qcPresent <;> simp [ensureQC, h]

theorem ensureQC_writes (ds : DS) : (ensureQC ds).writes = ds.writes := by
  by_cases h : ds.qcPresent <;> simp [ensureQC, h]

theorem ensureQC_of_qcPresent (ds : DS) (h : ds.qcPresent = true) :
    ensureQC ds = ds := by simp [ensureQC, h]

theorem check_ds_qcPresent (ds : DS) (key : String) (f : DS → Bool) :
    (get_or_write_check ds key f).ds.qcPresent = true := by
  simp only [get_or_write_check]
  cases h : alookup (ensureQC ds).qcAttrs key <;>
    simp [h, ensureQC_qcPresent]

theorem check_ds_data (ds : DS) (key : String) (f : DS → Bool) :
    (get_or_write_check ds key f).ds.data = ds.data := by
  simp only [get_or_write_check]
  cases h : alookup (ensureQC ds).qcAttrs key <;>
    simp [h, ensureQC_data]

/-- A QC attribute already on the record survives any
`get_or_write_check` call unchanged (write-once). -/
theorem check_preserves_qcAttr (ds : DS) (k : String) (v : Int)
    (key : String) (f : DS → Bool) (hq : ds.qcPresent = true)
    (hv : alookup ds.qcAttrs k = some v) :
    (get_or_write_check ds key f).ds.qcPresent = true ∧
    alookup (get_or_write_check ds key f).ds.qcAttrs k = some v := by
  have he : ensureQC ds = ds := ensureQC_of_qcPresent ds hq
  refine ⟨check_ds_qcPresent ds key f, ?_⟩
  simp only [get_or_write_check, he]
  cases h : alookup ds.qcAttrs key with
  | some w => simpa using hv
  | none =>
      by_cases hk : k = key
      · rw [hk] at hv; rw [hv] at h; cases h
      · simpa [alookup_aset_ne _ _ _ _ hk] using hv

/-- A QC attribute already on the record survives any
`get_or_write_derived_file` call unchanged (write-once): the only
QC-attribute write in that function goes through `get_or_write_check`
on the error key. -/
theorem derived_preserves_qcAttr (ds : DS) (k : String) (v : Int)
    (key : String) (f : DS → Except PyExc ProdRes)
    (hq : ds.qcPresent = true) (hv : alookup ds.qcAttrs k = some v) :
    (get_or_write_derived_file ds key f).ds.qcPresent = true ∧
    alookup (get_or_write_derived_file ds key f).ds.qcAttrs k = some v := by
  simp only [get_or_write_derived_file]
  by_cases hm : dsMem ds key = true
  · simp [hm, hq, hv]
  · simp only [hm, Bool.false_eq_true, if_false]
    by_cases hg : (ds.qcPresent && (alookup ds.qcAttrs (key ++ "_error")).isSome) = true
    · have hs : (alookup ds.qcAttrs (key ++ "_error")).isSome = true := by
        simpa [hq] using hg
      simp [hs, hq, hv]
    · simp only [hg, Bool.false_eq_true, if_false]
      cases hf : f ds with
      | error e =>
          by_cases hi : isInvalidSBEFile e = true
          · simpa [hi] using check_preserves_qcAttr ds k v (key ++ "_error")
              (fun _ => false) hq hv
          · simp [hi, hq, hv]
      | ok r =>
          cases r with
          | single w => simp [hq, hv]
          | multi m =>
              by_cases hk : (alookup m key).isSome <;> simp [hk, hq, hv]

/-- A `<key>_error` marker present in the QC attribute map suppresses
the producer: `get_or_write_derived_file` performs zero producer
invocations. -/
theorem derived_calls_zero_of_marker (ds : DS) (key : String)
    (f : DS → Except PyExc ProdRes) (v : Int) (hq : ds.qcPresent = true)
    (hv : alookup ds.qcAttrs (key ++ "_error") = some v) :
    (get_or_write_derived_file ds key f).calls = 0 := by
  simp only [get_or_write_derived_file]
  by_cases hm : dsMem ds key = true
  · simp [hm]
  · simp [hm, hq, hv]

/-- `get_or_write_check` on a record that already carries `key`: the
stored int8 is returned as a boolean, nothing is invoked or written. -/
theorem get_or_write_check_hit (ds : DS) (key : String) (g : DS → Bool)
    (c : Int) (hq : ds.qcPresent = true)
    (h : alookup ds.qcAttrs key = some c) :
    get_or_write_check ds key g = ⟨c != 0, ds, 0⟩ := by
  simp [get_or_write_check, ensureQC_of_qcPresent ds hq, h]

/-- `get_or_write_check` on a QC-initialized record that misses `key`:
the check runs once, its result is stored and persisted. -/
theorem get_or_write_check_miss (ds : DS) (key : String) (g : DS → Bool)
    (hq : ds.qcPresent = true) (h : alookup ds.qcAttrs key = none) :
    get_or_write_check ds key g =
      ⟨g ds,
       { ds with
          qcAttrs := aset ds.qcAttrs key (if g ds then 1 else 0),
          writes := ds.writes + 1 }, 1⟩ := by
  simp [get_or_write_check, ensureQC_of_qcPresent ds hq, h]

/-- `get_or_write_check` on a record with no QC variable: the empty QC
attribute map is initialized in memory and persisted, in the same
single write that records the check result. -/
theorem get_or_write_check_init (ds : DS) (key : String) (g : DS → Bool)
    (hq : ds.qcPresent = false) :
    get_or_write_check ds key g =
      ⟨g { ds with qcPresent := true, qcAttrs := [] },
       { ds with
          qcPresent := true,
          qcAttrs :=
            [(key, if g { ds with qcPresent := true, qcAttrs := [] }
                   then 1 else 0)],
          writes := ds.writes + 1 }, 1⟩ := by
  simp [get_or_write_check, ensureQC, hq, alookup, aset]

/-- On a miss with the error-marker guard clear, a producer raising
`InvalidSBEFileError` is absorbed: the call records the marker through
`get_or_write_check` and returns `None`, having invoked the producer
once. -/
theorem derived_invalidSBE_state (ds : DS) (key : String)
    (f : DS → Except PyExc ProdRes) (hmem : dsMem ds key = false)
    (hguard : (ds.qcPresent
        && (alookup ds.qcAttrs (key ++ "_error")).isSome) = false)
    (hf : f ds = .error .invalidSBEFile) :
    get_or_write_derived_file ds key f =
      ⟨.ok none,
       (get_or_write_check ds (key ++ "_error") (fun _ => false)).ds,
       1⟩ := by
  simp [get_or_write_derived_file, hmem, hguard, hf, isInvalidSBEFile]

/-- The state after recording an error marker: data untouched, QC
variable present, the marker stored with the falsy value `int8(False)`
= `0`. -/
theorem marker_state (ds : DS) (key : String)
    (hguard : (ds.qcPresent
        && (alookup ds.qcAttrs (key ++ "_error")).isSome) = false) :
    ((get_or_write_check ds (key ++ "_error") (fun _ => false)).ds.qcPresent
        = true) ∧
    ((get_or_write_check ds (key ++ "_error") (fun _ => false)).ds.data
        = ds.data) ∧
    alookup (get_or_write_check ds (key ++ "_error")
        (fun _ => false)).ds.qcAttrs (key ++ "_error") = some 0 := by
  refine ⟨check_ds_qcPresent _ _ _, check_ds_data _ _ _, ?_⟩
  by_cases hq : ds.qcPresent = true
  · have hs : alookup ds.qcAttrs (key ++ "_error") = none := by
      have := hguard
      rw [hq] at this
      simpa [Option.isSome_iff_exists] using
        Option.not_isSome_iff_eq_none.mp (by simp_all)
    rw [get_or_write_check_miss ds _ _ hq hs]
    simpa using alookup_aset_self ds.qcAttrs (key ++ "_error") 0
  · have hq' : ds.qcPresent = false := by simpa using hq
    rw [get_or_write_check_init ds _ _ hq']
    simp [alookup]

/-- With the artifact absent from the data variables, the QC variable
present and the `<key>_error` marker set, `get_or_write_derived_file`
returns `None` touching nothing and invoking nothing. -/
theorem derived_after_marker (ds : DS) (key : String)
    (g : DS → Except PyExc ProdRes)
    (hdata : alookup ds.data key = none) (hq : ds.qcPresent = true)
    (hmark : (alookup ds.qcAttrs (key ++ "_error")).isSome = true) :
    get_or_write_derived_file ds key g = ⟨.ok none, ds, 0⟩ := by
  by_cases hm : dsMem ds key = true
  · have : alookup ds.data key = none → dsMem ds key = true →
        (key == R2R_QC_VARNAME && ds.qcPresent) = true := by
      intro h1 h2
      simpa [dsMem, h1] using h2
    simp [get_or_write_derived_file, hm, hdata]
  · simp [get_or_write_derived_file, hm, hq, hmark]

theorem runOps_cons (ds : DS) (op : QCOp) (ops : List QCOp) :
    runOps ds (op :: ops) = runOps (applyOp ds op) ops := rfl

/-- Write-once across any operation sequence: a QC attribute present on
the record keeps its value through every later cache operation. -/
theorem runOps_preserves_qcAttr (ops : List QCOp) (ds : DS) (k : String)
    (v : Int) (hq : ds.qcPresent = true)
    (hv : alookup ds.qcAttrs k = some v) :
    (runOps ds ops).qcPresent = true ∧
    alookup (runOps ds ops).qcAttrs k = some v := by
  induction ops generalizing ds with
  | nil => exact ⟨hq, hv⟩
  | cons op ops ih =>
      rw [runOps_cons]
      cases op with
      | check key f =>
          obtain ⟨h1, h2⟩ := check_preserves_qcAttr ds k v key f hq hv
          exact ih _ h1 h2
      | derived key f =>
          obtain ⟨h1, h2⟩ := derived_preserves_qcAttr ds k v key f hq hv
          exact ih _ h1 h2

/-! ## Claim theorems -/

/-- C4: for every cast record and key, a second `get_or_write_check`
call with the same key returns the value recorded by the first call and
does not invoke the second producer, even when that producer would
return a different value: the second call's output is exactly the first
call's result, the unchanged record, and zero producer invocations. -/
theorem check_memoization_idempotent (ds : DS) (key : String)
    (f g : DS → Bool) :
    get_or_write_check (get_or_write_check ds key f).ds key g =
      ⟨(get_or_write_check ds key f).result,
       (get_or_write_check ds key f).ds, 0⟩ := by
  by_cases hq : ds.qcPresent = true
  · cases h : alookup ds.qcAttrs key with
    | some v =>
        rw [get_or_write_check_hit ds key f v hq h]
        exact get_or_write_check_hit ds key g v hq h
    | none =>
        rw [get_or_write_check_miss ds key f hq h]
        dsimp only
        rw [get_or_write_check_hit
          { ds with
             qcAttrs := aset ds.qcAttrs key (if f ds = true then 1 else 0),
             writes := ds.writes + 1 }
          key g (if f ds = true then 1 else 0) hq
          (alookup_aset_self ds.qcAttrs key _)]
        by_cases hf : f ds = true <;> simp [hf]
  · have hq' : ds.qcPresent = false := by simpa using hq
    rw [get_or_write_check_init ds key f hq']
    dsimp only
    rw [get_or_write_check_hit
      { ds with
         qcPresent := true,
         qcAttrs := [(key,
           if f { ds with qcPresent := true, qcAttrs := [] } = true
           then 1 else 0)],
         writes := ds.writes + 1 }
      key g
      (if f { ds with qcPresent := true, qcAttrs := [] } = true
       then 1 else 0) rfl (by simp [alookup])]
    by_cases hf : f { ds with qcPresent := true, qcAttrs := [] } = true <;>
      simp [hf]

/-- C7: once a key is present in the QC attribute map, its stored value
survives every later sequence of `get_or_write_check` and
`get_or_write_derived_file` operations unchanged (written at most once,
never recomputed), and a key that is an error marker keeps suppressing
the derived-file producer (zero invocations) for the whole lifetime of
the record. -/
theorem qc_key_write_once (ds : DS) (ops : List QCOp) (k : String)
    (v : Int) (hq : ds.qcPresent = true)
    (hv : alookup ds.qcAttrs k = some v) :
    alookup (runOps ds ops).qcAttrs k = some v ∧
    ∀ key (f : DS → Except PyExc ProdRes), k = key ++ "_error" →
      (get_or_write_derived_file (runOps ds ops) key f).calls = 0 := by
  obtain ⟨h1, h2⟩ := runOps_preserves_qcAttr ops ds k v hq hv
  exact ⟨h2, fun key f hk =>
    derived_calls_zero_of_marker _ key f v h1 (hk ▸ h2)⟩

theorem qc_key_write_once_witness :
    alookup (runOps ⟨[("hex", "h")], true, [("con_report_error", 0)], 1⟩
        [QCOp.check "three_files" (fun _ => true),
         QCOp.derived "cnv_24hz" (fun _ => .ok (.single "z"))]).qcAttrs
      "con_report_error" = some 0 ∧
    (get_or_write_derived_file
        (runOps ⟨[("hex", "h")], true, [("con_report_error", 0)], 1⟩
          [QCOp.check "three_files" (fun _ => true),
           QCOp.derived "cnv_24hz" (fun _ => .ok (.single "z"))])
        "con_report" (fun _ => .ok (.single "w"))).calls = 0 := by
  have h := qc_key_write_once ⟨[("hex", "h")], true, [("con_report_error", 0)], 1⟩
    [QCOp.check "three_files" (fun _ => true),
     QCOp.derived "cnv_24hz" (fun _ => .ok (.single "z"))]
    "con_report_error" 0 rfl (by simp [alookup])
  exact ⟨h.1, h.2 "con_report" (fun _ => .ok (.single "w")) rfl⟩

/-- C2: when the producer for `key` raises `InvalidSBEFileError` on a
record that misses the key and carries no marker, the exception is not
propagated: the call returns `None` having invoked the producer once,
the `<key>_error` marker is recorded (through the boolean-check path,
with value `int8(False) = 0`), and every subsequent
`get_or_write_derived_file` call for `key` returns `None` with zero
producer invocations and an unchanged record. -/
theorem sticky_error_absorbed (ds : DS) (key : String)
    (f : DS → Except PyExc ProdRes) (hmem : dsMem ds key = false)
    (hguard : (ds.qcPresent
        && (alookup ds.qcAttrs (key ++ "_error")).isSome) = false)
    (hf : f ds = .error .invalidSBEFile) :
    (get_or_write_derived_file ds key f).result = .ok none ∧
    (get_or_write_derived_file ds key f).calls = 1 ∧
    alookup (get_or_write_derived_file ds key f).ds.qcAttrs
      (key ++ "_error") = some 0 ∧
    ∀ g, get_or_write_derived_file
        (get_or_write_derived_file ds key f).ds key g =
      ⟨.ok none, (get_or_write_derived_file ds key f).ds, 0⟩ := by
  rw [derived_invalidSBE_state ds key f hmem hguard hf]
  obtain ⟨hqp, hdata, hmark⟩ := marker_state ds key hguard
  have hdnone : alookup ds.data key = none := by
    rcases h : alookup ds.data key with _ | w
    · rfl
    · exfalso
      have : dsMem ds key = true := by simp [dsMem, h]
      rw [hmem] at this
      cases this
  refine ⟨rfl, rfl, hmark, fun g => ?_⟩
  exact derived_after_marker _ key g (by rw [hdata]; exact hdnone) hqp
    (by simp [hmark])

theorem sticky_error_absorbed_witness :
    (get_or_write_derived_file ⟨[("hex", "h")], false, [], 1⟩ "con_report"
        (fun _ => .error .invalidSBEFile)).result = .ok none ∧
    (get_or_write_derived_file ⟨[("hex", "h")], false, [], 1⟩ "con_report"
        (fun _ => .error .invalidSBEFile)).calls = 1 ∧
    alookup (get_or_write_derived_file ⟨[("hex", "h")], false, [], 1⟩
        "con_report" (fun _ => .error .invalidSBEFile)).ds.qcAttrs
      "con_report_error" = some 0 ∧
    get_or_write_derived_file
        (get_or_write_derived_file ⟨[("hex", "h")], false, [], 1⟩
          "con_report" (fun _ => .error .invalidSBEFile)).ds "con_report"
        (fun _ => .ok (.single "late")) =
      ⟨.ok none,
       (get_or_write_derived_file ⟨[("hex", "h")], false, [], 1⟩
          "con_report" (fun _ => .error .invalidSBEFile)).ds, 0⟩ := by
  have h := sticky_error_absorbed ⟨[("hex", "h")], false, [], 1⟩
    "con_report" (fun _ => .error .invalidSBEFile) (by decide) (by decide)
    rfl
  exact ⟨h.1, h.2.1, h.2.2.1, h.2.2.2 (fun _ => .ok (.single "late"))⟩

/-- C9: the sticky-error guard of `get_or_write_derived_file` tests the
marker for presence (`get(...) is not None`), not truthiness: the
marker recorded after an `InvalidSBEFileError` carries the falsy value
`int8(False) = 0` — reading it back through the boolean-check path
yields `False` — and yet it suppresses every future producer invocation
for that key. -/
theorem sticky_guard_presence_not_truthiness (ds : DS) (key : String)
    (f : DS → Except PyExc ProdRes) (hmem : dsMem ds key = false)
    (hguard : (ds.qcPresent
        && (alookup ds.qcAttrs (key ++ "_error")).isSome) = false)
    (hf : f ds = .error .invalidSBEFile) :
    alookup (get_or_write_derived_file ds key f).ds.qcAttrs
      (key ++ "_error") = some 0 ∧
    (∀ g, (get_or_write_check (get_or_write_derived_file ds key f).ds
        (key ++ "_error") g).result = false) ∧
    ∀ g, (get_or_write_derived_file
        (get_or_write_derived_file ds key f).ds key g).calls = 0 := by
  rw [derived_invalidSBE_state ds key f hmem hguard hf]
  obtain ⟨hqp, hdata, hmark⟩ := marker_state ds key hguard
  refine ⟨hmark, fun g => ?_, fun g => ?_⟩
  · rw [get_or_write_check_hit _ _ g 0 hqp hmark]
    rfl
  · exact derived_calls_zero_of_marker _ key g 0 hqp hmark

theorem sticky_guard_presence_not_truthiness_witness :
    alookup (get_or_write_derived_file ⟨[], true, [("date_valid", 1)], 0⟩
        "cnv_1db" (fun _ => .error .invalidSBEFile)).ds.qcAttrs
      "cnv_1db_error" = some 0 ∧
    (get_or_write_check (get_or_write_derived_file
        ⟨[], true, [("date_valid", 1)], 0⟩ "cnv_1db"
        (fun _ => .error .invalidSBEFile)).ds "cnv_1db_error"
      (fun _ => true)).result = false ∧
    (get_or_write_derived_file (get_or_write_derived_file
        ⟨[], true, [("date_valid", 1)], 0⟩ "cnv_1db"
        (fun _ => .error .invalidSBEFile)).ds "cnv_1db"
      (fun _ => .ok (.single "x"))).calls = 0 := by
  have h := sticky_guard_presence_not_truthiness
    ⟨[], true, [("date_valid", 1)], 0⟩ "cnv_1db"
    (fun _ => .error .invalidSBEFile) (by decide) (by decide) rfl
  exact ⟨h.1, h.2.1 (fun _ => true), h.2.2 (fun _ => .ok (.single "x"))⟩

/-- C3: a producer returning a mapping `{a: X, b: Y}` under request key
`a` has every key of the mapping written to the record and persisted
(one durable write), the value under `a` returned, and both `a` and
`b` subsequently retrievable with zero further producer invocations;
a producer whose returned mapping misses the requested key raises
`ValueError` immediately, with the record left untouched (nothing
written, so the error is raised before any persistence) and the
exception surfaced to the caller (no handler in the model catches it).
-/
theorem multi_key_producer (ds : DS) (a b X Y : String)
    (f : DS → Except PyExc ProdRes) (hmem : dsMem ds a = false)
    (hguard : (ds.qcPresent
        && (alookup ds.qcAttrs (a ++ "_error")).isSome) = false)
    (hab : a ≠ b) (hf : f ds = .ok (.multi [(a, X), (b, Y)])) :
    (get_or_write_derived_file ds a f).result = .ok (some X) ∧
    (get_or_write_derived_file ds a f).calls = 1 ∧
    (get_or_write_derived_file ds a f).ds.writes = ds.writes + 1 ∧
    alookup (get_or_write_derived_file ds a f).ds.data a = some X ∧
    alookup (get_or_write_derived_file ds a f).ds.data b = some Y ∧
    (∀ g, get_or_write_derived_file
        (get_or_write_derived_file ds a f).ds a g =
      ⟨.ok (some X), (get_or_write_derived_file ds a f).ds, 0⟩) ∧
    (∀ g, get_or_write_derived_file
        (get_or_write_derived_file ds a f).ds b g =
      ⟨.ok (some Y), (get_or_write_derived_file ds a f).ds, 0⟩) ∧
    ∀ g : DS → Except PyExc ProdRes, g ds = .ok (.multi [(b, Y)]) →
      get_or_write_derived_file ds a g = ⟨.error (.valueError a), ds, 1⟩ := by
  have hA : alookup (aset (aset ds.data a X) b Y) a = some X := by
    rw [alookup_aset_ne _ _ _ _ hab, alookup_aset_self]
  have hB : alookup (aset (aset ds.data a X) b Y) b = some Y :=
    alookup_aset_self _ _ _
  have ho : get_or_write_derived_file ds a f =
      ⟨.ok (some X),
       { ds with
          data := aset (aset ds.data a X) b Y,
          writes := ds.writes + 1 }, 1⟩ := by
    simp [get_or_write_derived_file, hmem, hguard, hf, alookup, hA]
  rw [ho]
  refine ⟨rfl, rfl, rfl, hA, hB, fun g => ?_, fun g => ?_, fun g hg => ?_⟩
  · simp [get_or_write_derived_file, dsMem, hA]
  · simp [get_or_write_derived_file, dsMem, hB]
  · simp [get_or_write_derived_file, hmem, hguard, hg, alookup,
      Ne.symm hab]

theorem multi_key_producer_witness :
    (get_or_write_derived_file ⟨[("hex", "h")], true, [], 0⟩ "cnv_24hz"
        (fun _ => .ok (.multi [("cnv_24hz", "24"), ("cnv_1db", "1db")]))
      ).result = .ok (some "24") ∧
    (get_or_write_derived_file ⟨[("hex", "h")], true, [], 0⟩ "cnv_24hz"
        (fun _ => .ok (.multi [("cnv_24hz", "24"), ("cnv_1db", "1db")]))
      ).ds.writes = 1 ∧
    get_or_write_derived_file
        (get_or_write_derived_file ⟨[("hex", "h")], true, [], 0⟩
          "cnv_24hz"
          (fun _ => .ok (.multi [("cnv_24hz", "24"), ("cnv_1db", "1db")]))
          ).ds "cnv_1db" (fun _ => .error .invalidSBEFile) =
      ⟨.ok (some "1db"),
       (get_or_write_derived_file ⟨[("hex", "h")], true, [], 0⟩
          "cnv_24hz"
          (fun _ => .ok (.multi [("cnv_24hz", "24"), ("cnv_1db", "1db")]))
          ).ds, 0⟩ ∧
    get_or_write_derived_file ⟨[("hex", "h")], true, [], 0⟩ "cnv_24hz"
        (fun _ => .ok (.multi [("cnv_1db", "1db")])) =
      ⟨.error (.valueError "cnv_24hz"), ⟨[("hex", "h")], true, [], 0⟩,
       1⟩ := by
  have h := multi_key_producer ⟨[("hex", "h")], true, [], 0⟩ "cnv_24hz"
    "cnv_1db" "24" "1db"
    (fun _ => .ok (.multi [("cnv_24hz", "24"), ("cnv_1db", "1db")]))
    (by decide) (by decide) (by decide) rfl
  exact ⟨h.1, h.2.2.1, h.2.2.2.2.2.2.1 (fun _ => .error .invalidSBEFile),
    h.2.2.2.2.2.2.2 (fun _ => .ok (.multi [("cnv_1db", "1db")])) rfl⟩

/-- C8 counterexample: a derived-file read-and-compute on a record with
no QC attribute map does NOT initialize a QC map — the producer
succeeds, the artifact is recorded and persisted (one write), and the
record still has no QC variable afterwards, contradicting the claim
for the derived-file path of the memoization cache. -/
theorem qc_map_init_counterexample :
    (get_or_write_derived_file ⟨[("hex", "h")], false, [], 0⟩
        "con_report" (fun _ => .ok (.single "REPORT"))).ds.qcPresent
      = false ∧
    (get_or_write_derived_file ⟨[("hex", "h")], false, [], 0⟩
        "con_report" (fun _ => .ok (.single "REPORT"))).ds.writes = 1 ∧
    (get_or_write_derived_file ⟨[("hex", "h")], false, [], 0⟩
        "con_report" (fun _ => .ok (.single "REPORT"))).result
      = .ok (some "REPORT") := by
  decide

/-- C8 (amended): reading a record key through the boolean-check
memoization path (`get_or_write_check`) when the record has no QC
attribute map initializes an empty QC map on the record, persisted
durably as part of the same single write that records the computed
result; the derived-file path performs no such initialization on
producer success. -/
theorem qc_map_init_check_path (ds : DS) (key : String) (f : DS → Bool)
    (hq : ds.qcPresent = false) :
    get_or_write_check ds key f =
      ⟨f { ds with qcPresent := true, qcAttrs := [] },
       { ds with
          qcPresent := true,
          qcAttrs := [(key,
            if f { ds with qcPresent := true, qcAttrs := [] } = true
            then 1 else 0)],
          writes := ds.writes + 1 }, 1⟩ ∧
    ∀ (g : DS → Except PyExc ProdRes) (w : String),
      g ds = .ok (.single w) →
      (get_or_write_derived_file ds key g).ds.qcPresent = false := by
  refine ⟨get_or_write_check_init ds key f hq, fun g w hg => ?_⟩
  by_cases hm : dsMem ds key = true
  · simp [get_or_write_derived_file, hm, hq]
  · simp [get_or_write_derived_file, hm, hq, hg]

theorem qc_map_init_check_path_witness :
    get_or_write_check ⟨[], false, [], 5⟩ "three_files"
        (fun _ => true) =
      ⟨true, ⟨[], true, [("three_files", 1)], 6⟩, 1⟩ ∧
    (get_or_write_derived_file ⟨[], false, [], 5⟩ "three_files"
        (fun _ => .ok (.single "w"))).ds.qcPresent = false := by
  have h := qc_map_init_check_path ⟨[], false, [], 5⟩ "three_files"
    (fun _ => true) rfl
  exact ⟨h.1, h.2 (fun _ => .ok (.single "w")) "w" rfl⟩

/-- C1 counterexample: with the deployed bound (`attempts(3)`), a
`run_sbebatch` whose every run reports the crash signature on stderr is
invoked 3 times in total — i.e. 2 additional times beyond the first
attempt, not 3 — the worker is restarted 3 times, and the wrapper then
returns `None` silently instead of raising an error. -/
theorem retry_bound_counterexample :
    run_sbebatch_attempts
        (fun _ => ["wine: Unhandled page fault - starting debugger"])
        (fun _ => true) =
      ⟨.ok none, 3, 3⟩ ∧
    (run_sbebatch_attempts
        (fun _ => ["wine: Unhandled page fault - starting debugger"])
        (fun _ => true)).calls ≠ 1 + 3 := by
  decide

/-- C1 (amended): for a tool invocation whose every attempt raises the
transient-crash condition and whose restarts re-validate healthy, the
retry wrapper with the default bound 3 invokes the wrapped task 3 times
in total (2 additional times beyond the first attempt), restarts the
worker container 3 times, and after exceeding the bound returns `None`
to the caller silently — it does not raise. -/
theorem retry_bound_silent_none (runs : Nat → List String)
    (restartOk : Nat → Bool)
    (hcrash : ∀ i, (runs i).any
        (fun l => strContains l startingDebuggerSig) = true)
    (hrestart : ∀ j, restartOk j = true) :
    run_sbebatch_attempts runs restartOk = ⟨.ok none, 3, 3⟩ := by
  simp [run_sbebatch_attempts, attempts, attempts_loop, sbebatchTires,
    run_sbebatch_classify, hcrash, hrestart, isWineDebuggerEntered]

theorem retry_bound_silent_none_witness :
    run_sbebatch_attempts
        (fun _ => ["err:seh:start_debugger starting debugger failed"])
        (fun _ => true) =
      ⟨.ok none, 3, 3⟩ :=
  retry_bound_silent_none
    (fun _ => ["err:seh:start_debugger starting debugger failed"])
    (fun _ => true)
    (fun _ => (by decide :
      (["err:seh:start_debugger starting debugger failed"].any
        (fun l => strContains l startingDebuggerSig)) = true))
    (fun _ => rfl)

/-- C5: failure classification discriminates by exact case-sensitive
stderr substrings.  A stderr containing `"ReadConFile - failed to
read"` makes the configuration-report task raise the permanent
`InvalidXMLCONError` (an `InvalidSBEFileError` to the cache) which the
retry wrapper does not catch — even wrapped in `attempts`, the task
runs once, the worker is restarted zero times and the error
propagates.  A stderr containing `"starting debugger"` makes the batch
task raise the transient `WineDebuggerEnteredError`, which is not an
`InvalidSBEFileError`, so a producer failing with it leaves the cast
record completely unchanged — no sticky per-cast error marker is ever
memoized. -/
theorem stderr_failure_discrimination (lines1 lines2 : List String)
    (ds : DS) (key : String) (f : DS → Except PyExc ProdRes)
    (h1 : lines1.any (fun l => strContains l readConFileSig) = true)
    (h2 : lines2.any (fun l => strContains l startingDebuggerSig) = true)
    (hf : f ds = .error .wineDebuggerEntered) :
    run_con_report_classify lines1 = .error .invalidXMLCON ∧
    isInvalidSBEFile .invalidXMLCON = true ∧
    isWineDebuggerEntered .invalidXMLCON = false ∧
    (∀ restartOk, attempts sbebatchTires
        (fun _ => (.error .invalidXMLCON : Except PyExc Unit))
        restartOk = ⟨.error .invalidXMLCON, 1, 0⟩) ∧
    run_sbebatch_classify lines2 = .error .wineDebuggerEntered ∧
    isInvalidSBEFile .wineDebuggerEntered = false ∧
    (get_or_write_derived_file ds key f).ds = ds := by
  have hun : (get_or_write_derived_file ds key f).ds = ds := by
    by_cases hm : dsMem ds key = true
    · simp [get_or_write_derived_file, hm]
    · by_cases hg : (ds.qcPresent
          && (alookup ds.qcAttrs (key ++ "_error")).isSome) = true
      · simp [get_or_write_derived_file, hm, hg]
      · simp [get_or_write_derived_file, hm, hg, hf, isInvalidSBEFile]
  refine ⟨?_, rfl, rfl, fun restartOk => ?_, ?_, rfl, hun⟩
  · simp [run_con_report_classify, h1]
  · simp [attempts, attempts_loop, sbebatchTires, isWineDebuggerEntered]
  · simp [run_sbebatch_classify, h2]

theorem stderr_failure_discrimination_witness :
    run_con_report_classify
        ["ConReport: ReadConFile - failed to read file"] =
      .error .invalidXMLCON ∧
    attempts sbebatchTires
        (fun _ => (.error .invalidXMLCON : Except PyExc Unit))
        (fun _ => false) = ⟨.error .invalidXMLCON, 1, 0⟩ ∧
    run_sbebatch_classify ["wine: starting debugger"] =
      .error .wineDebuggerEntered ∧
    (get_or_write_derived_file ⟨[("hex", "h")], true, [("three_files", 1)], 2⟩
        "cnv_24hz" (fun _ => .error .wineDebuggerEntered)).ds =
      ⟨[("hex", "h")], true, [("three_files", 1)], 2⟩ := by
  have h := stderr_failure_discrimination
    ["ConReport: ReadConFile - failed to read file"]
    ["wine: starting debugger"]
    ⟨[("hex", "h")], true, [("three_files", 1)], 2⟩ "cnv_24hz"
    (fun _ => .error .wineDebuggerEntered)
    (by decide) (by decide) rfl
  exact ⟨h.1, h.2.2.2.1 (fun _ => false), h.2.2.2.2.1, h.2.2.2.2.2.2⟩

theorem container_ready_loop_never (health : Nat → Bool)
    (h : ∀ i, health i = false) :
    ∀ t i, container_ready_loop health i t = (false, i + t) := by
  intro t
  induction t with
  | zero => intro i; simp [container_ready_loop]
  | succ t ih =>
      intro i
      rw [container_ready_loop, h i, ih (i + 1)]
      simp only [Bool.false_eq_true, if_false, Prod.mk.injEq, true_and]
      omega

/-- C6: a worker that never reports healthy makes acquisition
(`ContainerGetter.__call__` with no existing container) poll exactly
`tries = timeout / sleep = 10` times and then raise a fatal error
rather than poll forever or return an unhealthy worker; the polling
budget totals `10 × 0.5 s = 5 s`. -/
theorem health_gate_bound (health : Nat → Bool)
    (h : ∀ i, health i = false) :
    container_ready health = (false, readyTriesN) ∧
    ContainerGetter_call none health =
      .error (.genericExc "Could not start container after 5 seconds") ∧
    readyTries = (readyTriesN : ℚ) ∧
    (readyTriesN : ℚ) * readySleepSec = readyTimeoutSec := by
  have hc : container_ready health = (false, readyTriesN) := by
    simpa [container_ready] using
      container_ready_loop_never health h readyTriesN 0
  refine ⟨hc, ?_, readyTries_eq, by
    norm_num [readyTriesN, readySleepSec, readyTimeoutSec]⟩
  simp [ContainerGetter_call, hc]

theorem health_gate_bound_witness :
    container_ready (fun _ => false) = (false, readyTriesN) ∧
    ContainerGetter_call none (fun _ => false) =
      .error (.genericExc "Could not start container after 5 seconds") ∧
    readyTries = (readyTriesN : ℚ) ∧
    (readyTriesN : ℚ) * readySleepSec = readyTimeoutSec :=
  health_gate_bound (fun _ => false) (fun _ => rfl)

/-- C10: the public `con_report` accessor tests the cached derived
value for truthiness, not mere presence: it returns `None` both when
the derived artifact is absent (its generation previously failed, so
only the error marker exists) and when the stored `con_report` value is
the falsy empty string; in the falsy-stored case the dependent
`cnv_24hz` and `cnv_1db` accessors also return `None` with zero
invocations of the conversion producer. -/
theorem con_report_truthiness (ds1 ds2 : DS)
    (mkCon mkCnv : DS → Except PyExc ProdRes)
    (hstored : alookup ds1.data "con_report" = some "")
    (habsent : dsMem ds2 "con_report" = false)
    (hq2 : ds2.qcPresent = true)
    (hmark : (alookup ds2.qcAttrs "con_report_error").isSome = true) :
    R2RAccessor.con_report ds1 mkCon = (.ok none, ds1) ∧
    R2RAccessor.cnv_24hz ds1 mkCon mkCnv = ⟨.ok none, ds1, 0⟩ ∧
    R2RAccessor.cnv_1db ds1 mkCon mkCnv = ⟨.ok none, ds1, 0⟩ ∧
    R2RAccessor.con_report ds2 mkCon = (.ok none, ds2) := by
  have hd1 : get_or_write_derived_file ds1 "con_report" mkCon =
      ⟨.ok (some ""), ds1, 0⟩ := by
    simp [get_or_write_derived_file, dsMem, hstored]
  have hcr1 : R2RAccessor.con_report ds1 mkCon = (.ok none, ds1) := by
    simp [R2RAccessor.con_report, hd1, truthy]
  have hd2 : get_or_write_derived_file ds2 "con_report" mkCon =
      ⟨.ok none, ds2, 0⟩ := by
    have he : ("con_report" ++ "_error" : String) = "con_report_error" :=
      rfl
    simp [get_or_write_derived_file, habsent, hq2, he, hmark]
  refine ⟨hcr1, ?_, ?_, by simp [R2RAccessor.con_report, hd2, truthy]⟩
  · simp [R2RAccessor.cnv_24hz, hcr1]
  · simp [R2RAccessor.cnv_1db, hcr1]

theorem con_report_truthiness_witness :
    R2RAccessor.con_report ⟨[("con_report", "")], true, [], 0⟩
        (fun _ => .ok (.single "X")) =
      (.ok none, ⟨[("con_report", "")], true, [], 0⟩) ∧
    R2RAccessor.cnv_24hz ⟨[("con_report", "")], true, [], 0⟩
        (fun _ => .ok (.single "X")) (fun _ => .ok (.single "C")) =
      ⟨.ok none, ⟨[("con_report", "")], true, [], 0⟩, 0⟩ ∧
    R2RAccessor.cnv_1db ⟨[("con_report", "")], true, [], 0⟩
        (fun _ => .ok (.single "X")) (fun _ => .ok (.single "C")) =
      ⟨.ok none, ⟨[("con_report", "")], true, [], 0⟩, 0⟩ ∧
    R2RAccessor.con_report ⟨[], true, [("con_report_error", 0)], 0⟩
        (fun _ => .ok (.single "X")) =
      (.ok none, ⟨[], true, [("con_report_error", 0)], 0⟩) :=
  con_report_truthiness ⟨[("con_report", "")], true, [], 0⟩
    ⟨[], true, [("con_report_error", 0)], 0⟩
    (fun _ => .ok (.single "X")) (fun _ => .ok (.single "C"))
    (by decide) (by decide) rfl (by decide)

end R2RCTD
